import Mathlib

/-!
Verification of the query-service core of this repository: the rule-based
Cypher post-processor (src/query-service/src/modules/text2cypher.py,
function post_process_cypher), the self-refinement repair loop
(src/query-service/src/main.py, self_refinement_loop) and the message
handler (src/query-service/src/main.py, message_handler).

Queries are modelled as lists of characters.  The Python regular
expressions of post_process_cypher are modelled by purpose-built scanners
that reproduce the leftmost, non-overlapping match semantics of re.sub,
re.search, re.split and re.finditer on those concrete patterns.  Character
classes are the ASCII ones actually written in the source
([a-zA-Z0-9_] for word characters); the queries the service manipulates
are ASCII.  Wall-clock timing fields of the repair trace are not modelled;
the external LLM calls, the Kuzu validation call and the Kuzu execution
call are abstracted as function parameters of the respective models.
-/

abbrev Str := List Char

def isWordChar (c : Char) : Bool := c.isAlpha || c.isDigit || c == '_'

def isSpaceChar (c : Char) : Bool :=
  c == ' ' || c == '\t' || c == '\n' || c == '\r' || c == Char.ofNat 11 || c == Char.ofNat 12

def quoteChar : Char := Char.ofNat 39

def dquoteChar : Char := Char.ofNat 34

/-- Case-insensitive prefix test; the first argument is an all-lowercase pattern. -/
def startsWithCI : Str → Str → Bool
  | [], _ => true
  | _ :: _, [] => false
  | p :: ps, c :: cs => (c.toLower == p) && startsWithCI ps cs

/-- Matches of the regex for variable declarations, r"\(\s*([a-zA-Z0-9_]+)\s*:\s*([a-zA-Z0-9_]+)":
a left parenthesis, optional whitespace, a word run, optional whitespace, a colon,
optional whitespace, a word run.  Mirrors re.finditer (scanning resumes after the end
of a match, otherwise at the next character).  The fuel argument bounds the recursion
and is always instantiated with more than the length of the string, which suffices
because every step consumes at least one character. -/
def scanVarLabels : Nat → Str → List (Str × Str)
  | 0, _ => []
  | _, [] => []
  | fuel + 1, c :: rest =>
    if c == '(' then
      let r1 := rest.dropWhile isSpaceChar
      let v := r1.takeWhile isWordChar
      let r2 := r1.dropWhile isWordChar
      if v.isEmpty then scanVarLabels fuel rest
      else
        match r2.dropWhile isSpaceChar with
        | ':' :: r4 =>
          let r5 := r4.dropWhile isSpaceChar
          let lab := r5.takeWhile isWordChar
          if lab.isEmpty then scanVarLabels fuel rest
          else (v, lab) :: scanVarLabels fuel (r5.dropWhile isWordChar)
        | _ => scanVarLabels fuel rest
    else scanVarLabels fuel rest

/-- Lookup in the var_to_label mapping with Python dict semantics: a later binding
of the same key overwrites an earlier one. -/
def dictGet : List (Str × Str) → Str → Option Str
  | [], _ => none
  | (k, v) :: rest, key =>
    match dictGet rest key with
    | some r => some r
    | none => if k == key then some v else none

/-- The word RETURN, case-insensitively and with a word boundary after it,
starts at this position (the boundary before it is checked by the caller). -/
def returnHere (s : Str) : Bool :=
  startsWithCI (("return").data) s &&
    (match s.drop 6 with
     | c :: _ => !isWordChar c
     | [] => true)

/-- Position of the last match of r"(?i)\bRETURN\b", as used by the re.split in
post_process_cypher: returns the text up to and including the last RETURN keyword
(with its original casing) and the text after it, or none when there is no match,
in which case the split produces fewer than 3 parts and the rule is skipped. -/
def findLastReturnAux : Bool → Str → Str → Option (Str × Str)
  | _, _, [] => none
  | prevW, pre, c :: rest =>
    match findLastReturnAux (isWordChar c) (pre ++ [c]) rest with
    | some r => some r
    | none =>
      if !prevW && returnHere (c :: rest) then
        some (pre ++ (c :: rest).take 6, (c :: rest).drop 6)
      else none

/-- The alternative ORDER\s+BY of the suffix regex starts at this position. -/
def orderByHere (s : Str) : Bool :=
  startsWithCI (("order").data) s &&
    (let r2 := s.drop 5
     !(r2.takeWhile isSpaceChar).isEmpty && startsWithCI (("by").data) (r2.dropWhile isSpaceChar))

/-- A match of the suffix regex r"(\s+(?:ORDER\s+BY|SKIP|LIMIT).*)" (IGNORECASE, DOTALL)
starts at this position: at least one whitespace character followed by one of the
three keywords (no trailing word boundary is required by the pattern). -/
def suffixHere (s : Str) : Bool :=
  !(s.takeWhile isSpaceChar).isEmpty &&
    (let r := s.dropWhile isSpaceChar
     startsWithCI (("skip").data) r || startsWithCI (("limit").data) r || orderByHere r)

/-- Split the last RETURN body at the leftmost match of the suffix regex; the suffix
extends to the end of the string (the pattern ends with .* under DOTALL). -/
def splitSuffixAux : Str → Str → Str × Str
  | pre, [] => (pre, [])
  | pre, c :: rest =>
    if suffixHere (c :: rest) then (pre, c :: rest)
    else splitSuffixAux (pre ++ [c]) rest

/-- The negative lookahead (?!\s*[\.\(]) fails, i.e. the token IS followed by
optional whitespace and a dot or an opening parenthesis. -/
def lookaheadDotParen (s : Str) : Bool :=
  match s.dropWhile isSpaceChar with
  | c :: _ => c == '.' || c == '('
  | [] => false

def scholarLabel : Str := ("Scholar").data

def knownNameProp : Str := ("knownName").data

def nameProp : Str := ("name").data

/-- The re.sub of rule 1: replace every maximal word run (the only candidates the
pattern \b([a-zA-Z0-9_]+)\b can match) that is not followed by optional whitespace
and a dot or parenthesis, and that is a declared variable, by variable.knownName
when its label is Scholar and by variable.name otherwise.  Fuel as in scanVarLabels. -/
def subVars (vm : List (Str × Str)) : Nat → Str → Str
  | 0, s => s
  | _, [] => []
  | fuel + 1, c :: rest =>
    if isWordChar c then
      let w := c :: rest.takeWhile isWordChar
      let r := rest.dropWhile isWordChar
      let rep :=
        if lookaheadDotParen r then w
        else
          match dictGet vm w with
          | some lab => w ++ '.' :: (if lab == scholarLabel then knownNameProp else nameProp)
          | none => w
      rep ++ subVars vm fuel r
    else c :: subVars vm fuel rest

/-- Rule 1 of post_process_cypher (text2cypher.py lines 151-187): build the
variable-to-label map; when it is non-empty and the query contains a RETURN
keyword, rewrite bare declared variables in the part after the last RETURN,
excluding a trailing ORDER BY / SKIP / LIMIT suffix. -/
def expandReturnVars (q : Str) : Str :=
  let vm := scanVarLabels (q.length + 1) q
  if vm.isEmpty then q
  else
    match findLastReturnAux false [] q with
    | none => q
    | some pb =>
      let cs := splitSuffixAux [] pb.2
      pb.1 ++ subVars vm (cs.1.length + 1) cs.1 ++ cs.2

/-- The properties whose accesses rule 2 wraps in toLower (matched case-sensitively,
the (?i:...) group of the pattern scopes only over the toLower prefix). -/
def targetProps : List Str :=
  [("name").data, ("scholar_type").data, ("fullName").data, ("knownName").data,
   ("gender").data, ("prize_id").data, ("category").data, ("motivation").data]

def boundaryAfter : Str → Bool
  | [] => true
  | c :: _ => !isWordChar c

def listStartsWith : Str → Str → Bool
  | [], _ => true
  | _ :: _, [] => false
  | p :: ps, c :: cs => (c == p) && listStartsWith ps cs

/-- Try the property alternation (?:name|scholar_type|...|motivation)\b at this
position, in the alternation order of the source pattern. -/
def findPropAt (s : Str) : Option (Str × Str) :=
  targetProps.findSome? fun p =>
    if listStartsWith p s && boundaryAfter (s.drop p.length) then some (p, s.drop p.length)
    else none

/-- Try the property-access target \b\w+\.(?:name|...)\b at this position; prevW
says whether the previous character of the original string is a word character
(in which case the leading \b fails). -/
def tryProp (prevW : Bool) (s : Str) : Option (Str × Str) :=
  if prevW then none
  else
    let w := s.takeWhile isWordChar
    let r := s.dropWhile isWordChar
    if w.isEmpty then none
    else
      match r with
      | '.' :: r2 =>
        match findPropAt r2 with
        | some pr => some (w ++ '.' :: pr.1, pr.2)
        | none => none
      | _ => none

/-- Try a string-literal target quoted by qc at this position: qc, a run of
non-qc characters, qc.  An unterminated literal does not match. -/
def tryQuoted (qc : Char) : Str → Option (Str × Str)
  | [] => none
  | c :: rest =>
    if c == qc then
      match rest.dropWhile (fun d => !(d == qc)) with
      | c2 :: r2 => some (c :: rest.takeWhile (fun d => !(d == qc)) ++ [c2], r2)
      | [] => none
    else none

/-- The target alternation of rule 2: a property access, else a single-quoted
literal, else a double-quoted literal, in source order. -/
def tryTarget (prevW : Bool) (s : Str) : Option (Str × Str) :=
  match tryProp prevW s with
  | some r => some r
  | none =>
    match tryQuoted quoteChar s with
    | some r => some r
    | none => tryQuoted dquoteChar s

/-- Try the optional prefix group (?i:toLower\s*\(\s*) at this position; returns
the matched text (original casing and spacing preserved) and the rest. -/
def tryFoldCall (s : Str) : Option (Str × Str) :=
  if startsWithCI (("tolower").data) s then
    let afterTol := s.drop 7
    let sp1 := afterTol.takeWhile isSpaceChar
    match afterTol.dropWhile isSpaceChar with
    | '(' :: r2 =>
      some (s.take 7 ++ sp1 ++ '(' :: r2.takeWhile isSpaceChar, r2.dropWhile isSpaceChar)
    | _ => none
  else none

def lastIsWord (dflt : Bool) (s : Str) : Bool :=
  match s.getLast? with
  | some c => isWordChar c
  | none => dflt

def foldWrap : Str := ("toLower(").data

/-- The re.sub scan of rule 2.  At each position the engine first tries the
optional (greedy) toLower prefix followed by a target: on success the whole
match is emitted unchanged (already wrapped).  Failing that it tries a bare
target: on success the target is wrapped in toLower(...).  Otherwise it moves
one character right.  The word-boundary state prevW tracks the previous
character of the original string.  Fuel as in scanVarLabels. -/
def wrapToLowerScan : Nat → Bool → Str → Str
  | 0, _, s => s
  | _, _, [] => []
  | fuel + 1, prevW, c :: rest =>
    let fallback :=
      match tryTarget prevW (c :: rest) with
      | some tr => foldWrap ++ tr.1 ++ ')' :: wrapToLowerScan fuel (lastIsWord prevW tr.1) tr.2
      | none => c :: wrapToLowerScan fuel (isWordChar c) rest
    match tryFoldCall (c :: rest) with
    | some pr =>
      match tryTarget false pr.2 with
      | some tr => pr.1 ++ tr.1 ++ wrapToLowerScan fuel (lastIsWord prevW tr.1) tr.2
      | none => fallback
    | none => fallback

/-- Rule 2 of post_process_cypher (text2cypher.py lines 189-216): wrap property
accesses on the target properties and string literals in toLower(...) unless
already immediately preceded by a toLower( call. -/
def wrapToLower (q : Str) : Str := wrapToLowerScan (q.length + 1) false q

/-- A match of r"\bLIMIT\s+\d+" (IGNORECASE) starts at this position: LIMIT
case-insensitively, at least one whitespace character, at least one digit
(prevW carries the word-boundary state as in the other scanners). -/
def limitHere (s : Str) : Bool :=
  startsWithCI (("limit").data) s &&
    (let r := s.drop 5
     !(r.takeWhile isSpaceChar).isEmpty &&
       (match r.dropWhile isSpaceChar with
        | c :: _ => c.isDigit
        | [] => false))

def hasLimitAux : Bool → Str → Bool
  | _, [] => false
  | prevW, c :: rest => (!prevW && limitHere (c :: rest)) || hasLimitAux (isWordChar c) rest

/-- The re.search of rule 3: the query contains a LIMIT clause r"\bLIMIT\s+\d+"
(case-insensitively), anywhere. -/
def hasLimit (q : Str) : Bool := hasLimitAux false q

/-- Python str.rstrip() restricted to ASCII whitespace. -/
def pyRstrip (q : Str) : Str := (q.reverse.dropWhile isSpaceChar).reverse

def limitTail : Str := (" LIMIT 100").data

def limitTailSemi : Str := (" LIMIT 100;").data

/-- Rule 3 of post_process_cypher (text2cypher.py lines 218-224): if no LIMIT
clause is present, strip trailing whitespace and append LIMIT 100, before a
trailing semicolon when there is one, else at the end. -/
def enforceLimit (q : Str) : Str :=
  if hasLimit q then q
  else
    let q1 := pyRstrip q
    if q1.getLast? == some ';' then q1.dropLast ++ limitTailSemi
    else q1 ++ limitTail

/-- post_process_cypher (text2cypher.py lines 147-226): the three rules in order. -/
def post_process_cypher (q : Str) : Str := enforceLimit (wrapToLower (expandReturnVars q))

/-! ## The self-refinement loop (main.py, self_refinement_loop) -/

inductive AttemptStatus
  | success
  | failed
deriving DecidableEq

/-- One entry of the retries list of the timing trace (timing fields, which carry
wall-clock measurements, are not modelled; the status field never escapes with
its initial "unknown" value, so the two reachable values suffice). -/
structure RetryInfo where
  attempt : Nat
  status : AttemptStatus
deriving DecidableEq

/-- The external collaborators of the loop: the initial text2cypher LLM call
(its raw .query.query output, as a function of the question), the repair LLM
call (as a function of the invalid query and the error message; the question
and the two schemas are fixed over one request and absorbed into the closure),
and the EXPLAIN dry-run validation (none is success, some e is the exception
message). -/
structure LoopEnv where
  genOracle : Str → Str
  repairOracle : Str → Str → Str
  validate : Str → Option Str

/-- The loop result: the final query, the retries entries of the trace, plus
two instrumentation lists recording each query handed to the validator and
each raw repair-oracle output, in order. -/
structure LoopResult where
  cypher : Str
  retries : List RetryInfo
  validated : List Str
  repairRaws : List Str
deriving DecidableEq

/-- generate_cypher (text2cypher.py lines 228-247): oracle draft, then
post_process_cypher.  The schema pruning and few-shot retrieval feed the
oracle prompt and are absorbed into the oracle function. -/
def generate_cypher (env : LoopEnv) (question : Str) : Str :=
  post_process_cypher (env.genOracle question)

/-- repair_cypher (text2cypher.py lines 249-258): oracle repair draft, then
post_process_cypher. -/
def repair_cypher (env : LoopEnv) (invalidQuery errMsg : Str) : Str :=
  post_process_cypher (env.repairOracle invalidQuery errMsg)

def max_retries : Nat := 3

/-- The for-loop of self_refinement_loop (main.py lines 47-84), written with the
number of remaining iterations as the recursion argument (remaining = max_retries
- attempt, so the Python test attempt == max_retries - 1 is remaining = 1, i.e.
remaining = 0 after the head iteration is peeled).  Each iteration validates the
current query; on success it appends a success entry and stops; on failure at the
last attempt it appends a failed entry and stops with the still-current query; on
failure otherwise it appends a failed entry, repairs, and continues. -/
def selfRefineGo (env : LoopEnv) :
    Nat → Nat → Str → List RetryInfo → List Str → List Str → LoopResult
  | 0, _, c, rs, vs, ws => ⟨c, rs, vs, ws⟩
  | m + 1, attempt, c, rs, vs, ws =>
    match env.validate c with
    | none => ⟨c, rs ++ [⟨attempt + 1, AttemptStatus.success⟩], vs ++ [c], ws⟩
    | some e =>
      if m = 0 then
        ⟨c, rs ++ [⟨attempt + 1, AttemptStatus.failed⟩], vs ++ [c], ws⟩
      else
        selfRefineGo env m (attempt + 1) (repair_cypher env c e)
          (rs ++ [⟨attempt + 1, AttemptStatus.failed⟩]) (vs ++ [c])
          (ws ++ [env.repairOracle c e])

/-- self_refinement_loop (main.py lines 31-86): initial generation, then the
bounded validate/repair loop with max_retries = 3. -/
def self_refinement_loop (env : LoopEnv) (question : Str) : LoopResult :=
  selfRefineGo env max_retries 0 (generate_cypher env question) [] [] []

/-! ## The message handler (main.py, message_handler) -/

/-- The externally observable side-effecting calls the handler makes, in order:
the schema extraction (get_schema_dict), the generation/repair loop, and the
database execution of the final query. -/
inductive HEvent
  | schemaExtract
  | llmLoop (question : Str)
  | dbExecute (cypher : Str)
deriving DecidableEq

structure ExecResult where
  columns : List Str
  rows : List (List Str)
deriving DecidableEq

/-- The single NATS reply the handler sends: either the result payload
(question, cypher, columns, rows, timings) or an error payload. -/
inductive HResponse
  | ok (question cypher : Str) (columns : List Str) (rows : List (List Str))
      (retries : List RetryInfo)
  | err (msg : Str)
deriving DecidableEq

/-- The handler collaborators: the parsed payload (error models a json.loads
exception; the inner Option models the presence of the question key), schema
extraction (error models a raised exception), and query execution. -/
structure HandlerEnv where
  loopEnv : LoopEnv
  payload : Except Str (Option Str)
  getSchema : Except Str Unit
  exec : Str → Except Str ExecResult

def missingQuestionMsg : Str := ("missing question").data

/-- message_handler (main.py lines 89-124): parse the payload, reject a missing
or empty question with the fixed error reply, extract the schema, run the
self-refinement loop, execute the resulting query (whatever its last validation
outcome was), and reply with the result payload; any raised exception is caught
and answered with an error payload.  The second component records the
side-effecting calls performed. -/
def message_handler (env : HandlerEnv) : HResponse × List HEvent :=
  match env.payload with
  | Except.error e => (HResponse.err e, [])
  | Except.ok none => (HResponse.err missingQuestionMsg, [])
  | Except.ok (some q) =>
    if q = [] then (HResponse.err missingQuestionMsg, [])
    else
      match env.getSchema with
      | Except.error e => (HResponse.err e, [HEvent.schemaExtract])
      | Except.ok _ =>
        let r := self_refinement_loop env.loopEnv q
        match env.exec r.cypher with
        | Except.error e =>
          (HResponse.err e,
           [HEvent.schemaExtract, HEvent.llmLoop q, HEvent.dbExecute r.cypher])
        | Except.ok res =>
          (HResponse.ok q r.cypher res.columns res.rows r.retries,
           [HEvent.schemaExtract, HEvent.llmLoop q, HEvent.dbExecute r.cypher])

/-! ## Witness environments (concrete instantiations of the abstract collaborators) -/

/-- A loop environment whose validator rejects every query. -/
def alwaysFailEnv : LoopEnv :=
  ⟨fun _ => ("MATCH (s:Scholar) RETURN s").data, fun c _ => c, fun _ => some (("boom").data)⟩

/-- A handler environment with a well-formed payload, an always-failing validator
(so the loop ends EXHAUSTED) and a successful execution of the final query. -/
def handlerEnvW : HandlerEnv :=
  ⟨alwaysFailEnv, Except.ok (some (("who won?").data)), Except.ok (),
   fun _ => Except.ok ⟨[("c1").data], [[("r1").data]]⟩⟩

/-- A handler environment whose payload has no question key. -/
def handlerEnvMissing : HandlerEnv :=
  ⟨alwaysFailEnv, Except.ok none, Except.ok (), fun _ => Except.error (("unused").data)⟩

/-! ## Shared structural lemma about the repair loop -/

/-- Structure of a run of the loop body started on a post-processed draft: the
trace, validated-draft and raw-repair accumulators only grow; between one and
`n` retries entries are appended; exactly one draft is validated per appended
entry; and the validated drafts are exactly the post-processings of the initial
raw draft followed by the raw repair outputs, in order. -/
theorem selfRefineGo_spec (env : LoopEnv) :
    ∀ n : Nat, n ≠ 0 → ∀ (attempt : Nat) (raw : Str) (rs : List RetryInfo) (vs ws : List Str),
      ∃ nr nv nw,
        (selfRefineGo env n attempt (post_process_cypher raw) rs vs ws).retries = rs ++ nr ∧
        (selfRefineGo env n attempt (post_process_cypher raw) rs vs ws).validated = vs ++ nv ∧
        (selfRefineGo env n attempt (post_process_cypher raw) rs vs ws).repairRaws = ws ++ nw ∧
        nv = (raw :: nw).map post_process_cypher ∧
        nr.length = nv.length ∧ 1 ≤ nr.length ∧ nr.length ≤ n := by
  intro n
  induction n with
  | zero => intro h; exact absurd rfl h
  | succ m ih =>
    intro _ attempt raw rs vs ws
    cases hv : env.validate (post_process_cypher raw) with
    | none =>
      refine ⟨[⟨attempt + 1, AttemptStatus.success⟩], [post_process_cypher raw], [],
        ?_, ?_, ?_, ?_, ?_, ?_, ?_⟩ <;> simp [selfRefineGo, hv]
    | some e =>
      rcases Nat.eq_zero_or_pos m with hm | hmpos
      · subst hm
        refine ⟨[⟨attempt + 1, AttemptStatus.failed⟩], [post_process_cypher raw], [],
          ?_, ?_, ?_, ?_, ?_, ?_, ?_⟩ <;> simp [selfRefineGo, hv]
      · have hm : m ≠ 0 := Nat.pos_iff_ne_zero.mp hmpos
        obtain ⟨nr, nv, nw, h1, h2, h3, h4, h5, h6, h7⟩ :=
          ih hm (attempt + 1) (env.repairOracle (post_process_cypher raw) e)
            (rs ++ [⟨attempt + 1, AttemptStatus.failed⟩]) (vs ++ [post_process_cypher raw])
            (ws ++ [env.repairOracle (post_process_cypher raw) e])
        have hstep : selfRefineGo env (m + 1) attempt (post_process_cypher raw) rs vs ws =
            selfRefineGo env m (attempt + 1)
              (post_process_cypher (env.repairOracle (post_process_cypher raw) e))
              (rs ++ [⟨attempt + 1, AttemptStatus.failed⟩]) (vs ++ [post_process_cypher raw])
              (ws ++ [env.repairOracle (post_process_cypher raw) e]) := by
          simp [selfRefineGo, hv, hm, repair_cypher]
        refine ⟨⟨attempt + 1, AttemptStatus.failed⟩ :: nr, post_process_cypher raw :: nv,
          env.repairOracle (post_process_cypher raw) e :: nw, ?_, ?_, ?_, ?_, ?_, ?_, ?_⟩
        · rw [hstep, h1]; simp
        · rw [hstep, h2]; simp
        · rw [hstep, h3]; simp
        · simp [h4]
        · simp [h5]
        · simp
        · simp; omega

/-! ## Claim theorems -/

/-- Claim C1: if validation fails on every attempt, self_refinement_loop returns
after exactly 3 validate/repair attempts, with a retries trace of exactly 3
entries, numbered 1, 2, 3 and each marked failed, returning the last query,
which is still invalid (the EXHAUSTED outcome of the spec state machine). -/
theorem C1_repair_loop_exhausts (env : LoopEnv) (question : Str)
    (h : ∀ c, (env.validate c).isSome) :
    (self_refinement_loop env question).retries =
      [⟨1, AttemptStatus.failed⟩, ⟨2, AttemptStatus.failed⟩, ⟨3, AttemptStatus.failed⟩] ∧
    (self_refinement_loop env question).validated.length = 3 ∧
    (self_refinement_loop env question).validated.getLast? =
      some (self_refinement_loop env question).cypher ∧
    (env.validate (self_refinement_loop env question).cypher).isSome := by
  obtain ⟨e0, he0⟩ := Option.isSome_iff_exists.mp (h (generate_cypher env question))
  obtain ⟨e1, he1⟩ := Option.isSome_iff_exists.mp
    (h (repair_cypher env (generate_cypher env question) e0))
  obtain ⟨e2, he2⟩ := Option.isSome_iff_exists.mp
    (h (repair_cypher env (repair_cypher env (generate_cypher env question) e0) e1))
  have hloop : self_refinement_loop env question =
      ⟨repair_cypher env (repair_cypher env (generate_cypher env question) e0) e1,
       [⟨1, AttemptStatus.failed⟩, ⟨2, AttemptStatus.failed⟩, ⟨3, AttemptStatus.failed⟩],
       [generate_cypher env question, repair_cypher env (generate_cypher env question) e0,
        repair_cypher env (repair_cypher env (generate_cypher env question) e0) e1],
       [env.repairOracle (generate_cypher env question) e0,
        env.repairOracle (repair_cypher env (generate_cypher env question) e0) e1]⟩ := by
    show selfRefineGo env 3 0 (generate_cypher env question) [] [] [] = _
    simp [selfRefineGo, he0, he1, he2]
  rw [hloop]
  exact ⟨rfl, rfl, rfl, h _⟩

/-- Witness for C1 at a concrete environment whose validator always fails. -/
theorem C1_repair_loop_exhausts_witness :
    (self_refinement_loop alwaysFailEnv (("q").data)).retries =
      [⟨1, AttemptStatus.failed⟩, ⟨2, AttemptStatus.failed⟩, ⟨3, AttemptStatus.failed⟩] ∧
    (self_refinement_loop alwaysFailEnv (("q").data)).validated.length = 3 ∧
    (self_refinement_loop alwaysFailEnv (("q").data)).validated.getLast? =
      some (self_refinement_loop alwaysFailEnv (("q").data)).cypher ∧
    (alwaysFailEnv.validate (self_refinement_loop alwaysFailEnv (("q").data)).cypher).isSome :=
  C1_repair_loop_exhausts alwaysFailEnv (("q").data) (fun _ => rfl)

/-- Claim C2 (refuting evidence): post_process_cypher is not idempotent.  On the
query MATCH (name:Prize) RETURN name — whose declared variable is named like
the projected property — the first pass yields toLower(name.name) and a second
pass expands the property token inserted by the first pass once more, yielding
toLower(name.name.name). -/
theorem C2_post_process_not_idempotent :
    post_process_cypher (post_process_cypher (("MATCH (name:Prize) RETURN name").data)) ≠
      post_process_cypher (("MATCH (name:Prize) RETURN name").data) ∧
    post_process_cypher (("MATCH (name:Prize) RETURN name").data) =
      (("MATCH (name:Prize) RETURN toLower(name.name) LIMIT 100").data) ∧
    post_process_cypher (("MATCH (name:Prize) RETURN toLower(name.name) LIMIT 100").data) =
      (("MATCH (name:Prize) RETURN toLower(name.name.name) LIMIT 100").data) := by
  refine ⟨by decide, by decide, by decide⟩

/-- Claim C3: on MATCH (s:Scholar)-[:WON]->(p:Prize) RETURN s, p.category the
return-clause rule projects the bare variable s as s.knownName and leaves the
already-projected term p.category unchanged; the full post-processor keeps both
(each additionally wrapped by the later case-fold rule, and the LIMIT cap
appended). -/
theorem C3_return_clause_projection :
    expandReturnVars (("MATCH (s:Scholar)-[:WON]->(p:Prize) RETURN s, p.category").data) =
      (("MATCH (s:Scholar)-[:WON]->(p:Prize) RETURN s.knownName, p.category").data) ∧
    post_process_cypher (("MATCH (s:Scholar)-[:WON]->(p:Prize) RETURN s, p.category").data) =
      (("MATCH (s:Scholar)-[:WON]->(p:Prize) RETURN toLower(s.knownName), toLower(p.category) LIMIT 100").data) := by
  refine ⟨by decide, by decide⟩

/-- Claim C5: LIMIT enforcement.  For every query reaching the cap rule with no
LIMIT clause (case-insensitive), exactly LIMIT 100 is appended, before the
trailing semicolon (after right-stripping) when one is present and at the end
otherwise; a query already containing a LIMIT clause is returned entirely
unchanged.  Through the full post-processor, a query with LIMIT 50 keeps that
clause untouched and gains no new LIMIT, and a semicolon-terminated query gains
LIMIT 100 before the semicolon. -/
theorem C5_limit_enforcement :
    (∀ q : Str,
      (hasLimit q = false →
        enforceLimit q =
          (if (pyRstrip q).getLast? == some ';' then (pyRstrip q).dropLast ++ limitTailSemi
           else pyRstrip q ++ limitTail)) ∧
      (hasLimit q = true → enforceLimit q = q)) ∧
    post_process_cypher (("MATCH (a:Institution) RETURN a LIMIT 50").data) =
      (("MATCH (a:Institution) RETURN toLower(a.name) LIMIT 50").data) ∧
    post_process_cypher (("MATCH (a:Institution) RETURN a;").data) =
      (("MATCH (a:Institution) RETURN toLower(a.name) LIMIT 100;").data) := by
  refine ⟨fun q => ⟨fun h => ?_, fun h => ?_⟩, by decide, by decide⟩
  · simp [enforceLimit, h]
  · simp [enforceLimit, h]

/-- Witness for C5: a query without a LIMIT clause gains exactly LIMIT 100 and a
query with one is unchanged, at concrete inputs. -/
theorem C5_limit_enforcement_witness :
    (hasLimit (("RETURN x").data) = false ∧
      enforceLimit (("RETURN x").data) = (("RETURN x LIMIT 100").data)) ∧
    (hasLimit (("RETURN x LIMIT 5").data) = true ∧
      enforceLimit (("RETURN x LIMIT 5").data) = (("RETURN x LIMIT 5").data)) :=
  ⟨⟨by decide, ((C5_limit_enforcement.1 (("RETURN x").data)).1 (by decide)).trans (by decide)⟩,
   ⟨by decide, (C5_limit_enforcement.1 (("RETURN x LIMIT 5").data)).2 (by decide)⟩⟩

/-- Claim C6: the case-fold rule never double-wraps: applied twice to
toLower(s.name) it returns toLower(s.name) unchanged, and it does not alter
property accesses or string literals already immediately inside a toLower call;
re-applying it to its own output is stable on an input it did wrap. -/
theorem C6_no_double_wrap :
    wrapToLower (wrapToLower (("toLower(s.name)").data)) = (("toLower(s.name)").data) ∧
    wrapToLower (("toLower(s.name)").data) = (("toLower(s.name)").data) ∧
    wrapToLower (("toLower('physics')").data) = (("toLower('physics')").data) ∧
    wrapToLower (("WHERE toLower(p.category) = toLower('physics')").data) =
      (("WHERE toLower(p.category) = toLower('physics')").data) ∧
    wrapToLower (wrapToLower (("MATCH (s:Scholar) WHERE s.name CONTAINS 'Bohr'").data)) =
      wrapToLower (("MATCH (s:Scholar) WHERE s.name CONTAINS 'Bohr'").data) := by
  refine ⟨by decide, by decide, by decide, by decide, by decide⟩

/-- Claim C7: the pipeline terminates within the attempt ceiling: one initial
generation plus at most max_retries = 3 validate/repair attempts (hence at most
max_retries - 1 = 2 repair-oracle calls), and every draft handed to the
validator — the generated one and every repaired one — is exactly the
post_process_cypher normalization of the corresponding raw oracle output, the
ceiling and the normalization function being the same across attempts. -/
theorem C7_attempt_ceiling (env : LoopEnv) (question : Str) :
    (self_refinement_loop env question).retries.length ≤ max_retries ∧
    1 ≤ (self_refinement_loop env question).retries.length ∧
    (self_refinement_loop env question).validated.length =
      (self_refinement_loop env question).retries.length ∧
    (self_refinement_loop env question).validated =
      (env.genOracle question :: (self_refinement_loop env question).repairRaws).map
        post_process_cypher ∧
    (self_refinement_loop env question).repairRaws.length ≤ max_retries - 1 := by
  obtain ⟨nr, nv, nw, h1, h2, h3, h4, h5, h6, h7⟩ :=
    selfRefineGo_spec env max_retries (by decide) 0 (env.genOracle question) [] [] []
  have hl : self_refinement_loop env question =
      selfRefineGo env max_retries 0 (post_process_cypher (env.genOracle question)) [] [] [] := rfl
  rw [hl, h1, h2, h3]
  simp only [List.nil_append]
  have hlen : nv.length = nw.length + 1 := by rw [h4]; simp
  have h7' : nr.length ≤ 3 := h7
  refine ⟨h7, h6, by omega, h4, ?_⟩
  show nw.length ≤ 3 - 1
  omega

/-- Claim C8: after the repair loop completes, the handler executes the final
query against the database regardless of the last validation outcome (including
the exhausted case — no hypothesis on the validator appears below), and the
caller receives either the question, the query, its columns, rows and trace, or
an explicit error payload. -/
theorem C8_handler_executes_regardless (env : HandlerEnv) (q : Str)
    (hp : env.payload = Except.ok (some q)) (hq : q ≠ [])
    (hs : env.getSchema = Except.ok ()) :
    (message_handler env).2 =
      [HEvent.schemaExtract, HEvent.llmLoop q,
       HEvent.dbExecute (self_refinement_loop env.loopEnv q).cypher] ∧
    ((∃ res, env.exec (self_refinement_loop env.loopEnv q).cypher = Except.ok res ∧
        (message_handler env).1 =
          HResponse.ok q (self_refinement_loop env.loopEnv q).cypher res.columns res.rows
            (self_refinement_loop env.loopEnv q).retries) ∨
     (∃ e, env.exec (self_refinement_loop env.loopEnv q).cypher = Except.error e ∧
        (message_handler env).1 = HResponse.err e)) := by
  constructor
  · cases hexec : env.exec (self_refinement_loop env.loopEnv q).cypher with
    | ok res => simp [message_handler, hp, hq, hs, hexec]
    | error e => simp [message_handler, hp, hq, hs, hexec]
  · cases hexec : env.exec (self_refinement_loop env.loopEnv q).cypher with
    | ok res => exact Or.inl ⟨res, rfl, by simp [message_handler, hp, hq, hs, hexec]⟩
    | error e => exact Or.inr ⟨e, rfl, by simp [message_handler, hp, hq, hs, hexec]⟩

/-- Witness for C8: a concrete handler whose validator always fails (so the
loop ends exhausted) still executes the final query and answers with the result
payload. -/
theorem C8_handler_executes_regardless_witness :
    (message_handler handlerEnvW).2 =
      [HEvent.schemaExtract, HEvent.llmLoop (("who won?").data),
       HEvent.dbExecute (self_refinement_loop handlerEnvW.loopEnv (("who won?").data)).cypher] ∧
    ((∃ res, handlerEnvW.exec (self_refinement_loop handlerEnvW.loopEnv (("who won?").data)).cypher =
          Except.ok res ∧
        (message_handler handlerEnvW).1 =
          HResponse.ok (("who won?").data)
            (self_refinement_loop handlerEnvW.loopEnv (("who won?").data)).cypher res.columns
            res.rows (self_refinement_loop handlerEnvW.loopEnv (("who won?").data)).retries) ∨
     (∃ e, handlerEnvW.exec (self_refinement_loop handlerEnvW.loopEnv (("who won?").data)).cypher =
          Except.error e ∧
        (message_handler handlerEnvW).1 = HResponse.err e)) :=
  C8_handler_executes_regardless handlerEnvW (("who won?").data) rfl (by decide) rfl

/-- Claim C9: the return-clause expansion rewrites bare declared variables also
inside an aggregate call: on a query declaring (s:Scholar) whose return clause
contains count(s), the rule rewrites it to count(s.knownName); through the full
post-processor the case-fold rule additionally wraps the projected access. -/
theorem C9_aggregate_argument_expansion :
    expandReturnVars (("MATCH (s:Scholar)-[:WON]->(p:Prize) RETURN count(s)").data) =
      (("MATCH (s:Scholar)-[:WON]->(p:Prize) RETURN count(s.knownName)").data) ∧
    post_process_cypher (("MATCH (s:Scholar)-[:WON]->(p:Prize) RETURN count(s)").data) =
      (("MATCH (s:Scholar)-[:WON]->(p:Prize) RETURN count(toLower(s.knownName)) LIMIT 100").data) := by
  refine ⟨by decide, by decide⟩

/-- Claim C10: a payload with no question key, or with an empty question,
is answered with exactly the missing-question error payload and triggers no
schema extraction, no generation or repair, and no database execution. -/
theorem C10_missing_question (env : HandlerEnv)
    (h : env.payload = Except.ok none ∨ env.payload = Except.ok (some [])) :
    message_handler env = (HResponse.err missingQuestionMsg, []) := by
  rcases h with h | h <;> simp [message_handler, h]

/-- Witness for C10 at a concrete handler environment lacking the question key. -/
theorem C10_missing_question_witness :
    message_handler handlerEnvMissing = (HResponse.err missingQuestionMsg, []) :=
  C10_missing_question handlerEnvMissing (Or.inl rfl)
